import Mathlib

/-!
Shallow embedding of the PR_QA_medical answer-generation pipeline
(`app/llm_service.py`) and its evaluation harness (`app/evaluation.py`).

Conventions of the embedding:
* Python values that cross the answer boundary (`Any`, practically the JSON
  scalars produced by `json.loads`) are modelled by `PyVal`.
* Python `float` arithmetic on the confidence scores is modelled by `ℚ`;
  every literal appearing in the source (0.8, 0.9, 1.2, ...) is an exact
  decimal, so no rounding behaviour is lost for the properties proved here.
* The nondeterministic completion backend (OpenAI chat calls) is modelled as
  an oracle (`Backend`): pure functions from the request's data to the parsed
  fields of the JSON reply.  Well-typed replies are assumed; a malformed reply
  raises in Python and is treated abstractly as an exception by the
  evaluation-harness model (`Except`).
* `datetime.now()` is modelled by an explicit `Date` argument.
-/

set_option linter.unusedVariables false

namespace PRQA

/-- A Python scalar value as produced by `json.loads` / carried in the
`str | bool` answer fields. -/
inductive PyVal where
  | str (s : String)
  | bool (b : Bool)
  | num (q : ℚ)
  | null
  deriving Repr, DecidableEq

/-- The whitespace class used by Python's `str.strip`, `str.split()` and the
`\s` regex class (ASCII part; the claims only exercise ASCII data). -/
def pyIsSpace (c : Char) : Bool :=
  c = ' ' || c = '\t' || c = '\n' || c = '\x0d' || c = '\x0b' || c = '\x0c'

/-- Python `str.lower` (ASCII part). -/
def pyLower (s : String) : String :=
  ⟨s.data.map Char.toLower⟩

/-- Python `str.strip()` with no arguments. -/
def pyStrip (s : String) : String :=
  ⟨((s.data.dropWhile pyIsSpace).reverse.dropWhile pyIsSpace).reverse⟩

/-- `p` occurs as a contiguous run at the start of `l`. -/
def charsStart : List Char → List Char → Bool
  | [], _ => true
  | _ :: _, [] => false
  | a :: ps, b :: ls => a = b && charsStart ps ls

/-- `p` occurs as a contiguous run somewhere in `l` (Python `p in l` on
strings). -/
def charsContain (l p : List Char) : Bool :=
  match l with
  | [] => p.isEmpty
  | _ :: ls => charsStart p l || charsContain ls p

/-- Python `sub in s` for strings. -/
def hasSubstr (s sub : String) : Bool :=
  charsContain s.data sub.data

/-- Accumulating scanner behind `pySplitWs`. -/
def wordsAux : List Char → List Char → List String
  | [], acc => if acc.isEmpty then [] else [⟨acc.reverse⟩]
  | c :: rest, acc =>
    if pyIsSpace c then
      if acc.isEmpty then wordsAux rest [] else ⟨acc.reverse⟩ :: wordsAux rest []
    else wordsAux rest (c :: acc)

/-- Python `str.split()` with no arguments: split on whitespace runs,
dropping empty fields. -/
def pySplitWs (s : String) : List String :=
  wordsAux s.data []

/-- Scanner behind `pySplitOn`; the fuel (initially the string's length,
each step consuming at least one character and one unit of fuel) only makes
the left-to-right scan structurally recursive. -/
def splitSepAux (sep : List Char) : Nat → List Char → List Char → List (List Char)
  | _, [], acc => [acc.reverse]
  | 0, l, acc => [acc.reverse ++ l]
  | fuel + 1, c :: rest, acc =>
    if charsStart sep (c :: rest) then
      acc.reverse :: splitSepAux sep fuel (List.drop (sep.length - 1) rest) []
    else splitSepAux sep fuel rest (c :: acc)

/-- Python `s.split(sep)` for a nonempty separator: cut at every
non-overlapping occurrence, scanning left to right. -/
def pySplitOn (s sep : String) : List String :=
  (splitSepAux sep.data s.data.length s.data []).map fun l => ⟨l⟩

/-- Scanner behind `pyReplace`; fuel as in `splitSepAux`. -/
def replaceAux (pat repl : List Char) : Nat → List Char → List Char
  | _, [] => []
  | 0, l => l
  | fuel + 1, c :: rest =>
    if charsStart pat (c :: rest) then
      repl ++ replaceAux pat repl fuel (List.drop (pat.length - 1) rest)
    else c :: replaceAux pat repl fuel rest

/-- Python `s.replace(pat, repl)` for a nonempty pattern: replace every
non-overlapping occurrence, scanning left to right. -/
def pyReplace (s pat repl : String) : String :=
  ⟨replaceAux pat.data repl.data s.data.length s.data⟩

/-- Python `str(x)` on the scalar values of the model.  `str` on a float is
Python's shortest round-trip repr, which the claims never exercise; it is
rendered here as a plain rational. -/
def pyStr : PyVal → String
  | .str s => s
  | .bool true => "True"
  | .bool false => "False"
  | .num q => if q.den = 1 then toString q.num else toString q.num ++ "/" ++ toString q.den
  | .null => "None"

/-- Python truthiness `bool(x)` on the scalar values of the model. -/
def pyTruthy : PyVal → Bool
  | .str s => s ≠ ""
  | .bool b => b
  | .num q => q ≠ 0
  | .null => false

/-- Python `==` on the scalar values of the model (`True == 1`,
`"true" ≠ True`, etc.). -/
def pyEq : PyVal → PyVal → Bool
  | .str a, .str b => a = b
  | .bool a, .bool b => a = b
  | .num a, .num b => a = b
  | .bool a, .num b => (if a then (1 : ℚ) else 0) = b
  | .num a, .bool b => a = (if b then (1 : ℚ) else 0)
  | .null, .null => true
  | _, _ => false

/-- Insertion-order-preserving Python `dict` update `d[k] = v` on an
association list. -/
def pyDictSet {α : Type} (d : List (String × α)) (k : String) (v : α) :
    List (String × α) :=
  if d.any (fun kv => kv.1 = k) then
    d.map (fun kv => if kv.1 = k then (k, v) else kv)
  else d ++ [(k, v)]

/-- Python `d.get(k)` / `k in d` on an association list. -/
def pyDictGet? {α : Type} (d : List (String × α)) (k : String) : Option α :=
  (d.find? (fun kv => kv.1 = k)).map (fun kv => kv.2)

/-!  ## The visibility-condition evaluator (`_evaluate_condition`,
llm_service.py 603-635). -/

/-- Model of `re.match(r"\x7b([^\x7d]+)\x7d\s*=\s*(.+)", s)`, returning
`(group(1), group(2))` when the pattern matches.

The regex engine's behaviour is reproduced exactly: `[^\x7d]+` takes the
maximal nonempty run of non-`\x7d` characters; the first `\s*` must end
exactly at a `=` (backtracking cannot help since whitespace is never `=`);
the final `\s*(.+)` is matched greedily with backtracking, so when anything
non-whitespace follows, `group(2)` starts at the first non-whitespace
character and runs to the next newline, and when only whitespace follows,
`group(2)` is the single last non-newline whitespace character (if any). -/
def matchClause (s : String) : Option (String × String) :=
  match s.data with
  | '{' :: rest =>
    match rest.takeWhile (fun c => c ≠ '}'), rest.dropWhile (fun c => c ≠ '}') with
    | key@(_ :: _), '}' :: rest3 =>
      match rest3.dropWhile pyIsSpace with
      | '=' :: rest5 =>
        let ws2 := rest5.takeWhile pyIsSpace
        let after2 := rest5.dropWhile pyIsSpace
        if after2 ≠ [] then
          some (⟨key⟩, ⟨after2.takeWhile (fun c => c ≠ '\n')⟩)
        else
          match (ws2.filter (fun c => c ≠ '\n')).reverse with
          | [] => none
          | c :: _ => some (⟨key⟩, ⟨[c]⟩)
      | _ => none
    | _, _ => none
  | _ => none

/-- The single-clause path of `_evaluate_condition` (the code below the
`" and "` split): match the clause pattern against the stripped condition;
on a match, compare `str(answers[key]).lower()` with the stripped, lowered
right-hand side, a missing key giving `False`; on no match, return `True`. -/
def evalSingle (cond : String) (answers : List (String × PyVal)) : Bool :=
  match matchClause (pyStrip cond) with
  | some (key, expected) =>
    match pyDictGet? answers key with
    | none => false
    | some v => pyLower (pyStr v) = pyLower (pyStrip expected)
  | none => true

/-- `_evaluate_condition` (llm_service.py 603-635).  The source recurses on
the parts of `condition.split(" and ")`; since a part can never contain the
separator again, each recursive call lands in the single-clause path, which
is unrolled here. -/
def evalCondition (cond : String) (answers : List (String × PyVal)) : Bool :=
  if cond = "" then true
  else if hasSubstr cond " and " then
    (pySplitOn cond " and ").all (fun part => evalSingle (pyStrip part) answers)
  else evalSingle cond answers

/-!  ## Dates and age (`_calculate_age`, llm_service.py 117-122). -/

def isAsciiDigit (c : Char) : Bool :=
  '0' ≤ c && c ≤ '9'

def digitsToNat (l : List Char) : Nat :=
  l.foldl (fun a c => a * 10 + (c.toNat - 48)) 0

/-- A calendar date, standing in for `datetime`. -/
structure Date where
  year : Int
  month : Nat
  day : Nat
  deriving Repr, DecidableEq

def isLeapYear (y : Int) : Bool :=
  (y % 4 = 0 && y % 100 ≠ 0) || y % 400 = 0

def daysInMonth (y : Int) (m : Nat) : Nat :=
  if m = 2 then (if isLeapYear y then 29 else 28)
  else if m = 4 || m = 6 || m = 9 || m = 11 then 30
  else 31

/-- The value of a nonempty all-digit decimal field, as `int()` reads it. -/
def decField? (s : String) : Option Nat :=
  if s.data ≠ [] ∧ s.data.all isAsciiDigit then some (digitsToNat s.data) else none

/-- `datetime.strptime(s, "%Y-%m-%d")`: three dash-separated decimal fields,
month and day validated against the calendar (strptime raises `ValueError`
otherwise, modelled by `none`). -/
def parseDateYmd (s : String) : Option (Int × Nat × Nat) :=
  match pySplitOn s "-" with
  | [ys, ms, ds] =>
    match decField? ys, decField? ms, decField? ds with
    | some y, some m, some d =>
      if 1 ≤ m ∧ m ≤ 12 ∧ 1 ≤ d ∧ d ≤ daysInMonth y m then some ((y : Int), m, d)
      else none
    | _, _, _ => none
  | _ => none

/-- `_calculate_age` (llm_service.py 117-122): calendar-year difference minus
the Python bool `(today.month, today.day) < (dob.month, dob.day)`
(tuple comparison is lexicographic).  `none` models the `ValueError` a
malformed `date_of_birth` raises in `strptime`. -/
def calculateAge (dateOfBirth : String) (today : Date) : Option Int :=
  match parseDateYmd dateOfBirth with
  | none => none
  | some (y, m, d) =>
    some (today.year - y -
      (if today.month < m ∨ (today.month = m ∧ today.day < d) then 1 else 0))

/-!  ## Data model.

`app/models.py` is imported by the sources (`from .models import Patient,
Question`) but is not among the provided files; the two value objects are
modelled from the spec. -/

/-- Modelled from the spec: the `Question` value object of the missing
`app/models.py` — `type` (`"text"` | `"boolean"`), unique `key`, natural
language `content`, optional string-encoded visibility condition
`visible_if`. -/
structure Question where
  type : String
  key : String
  content : String
  visible_if : Option String := none
  deriving Repr, DecidableEq

/-- Modelled from the spec: the prescription sub-record of `Patient` in the
missing `app/models.py`. -/
structure Prescription where
  medication : String
  dosage : String
  frequency : String
  duration : String
  deriving Repr, DecidableEq

/-- Modelled from the spec: the `Patient` value object of the missing
`app/models.py` — demographics, prescription and ordered visit notes. -/
structure Patient where
  first_name : String
  last_name : String
  date_of_birth : String
  gender : String
  prescription : Prescription
  visit_notes : List String
  deriving Repr, DecidableEq

/-- `AnswerWithConfidence` (llm_service.py 45-52).  The pydantic `Field`
bounds on `confidence` are enforced by `mkAnswerWithConfidence` below. -/
structure AnswerWithConfidence where
  question : Question
  value : PyVal
  confidence : ℚ
  reasoning : Option String
  improvements : Option (List String)
  deriving Repr, DecidableEq

/-- Pydantic validation of `AnswerWithConfidence`: constructing one with
`confidence` outside `Field(ge=0.0, le=1.0)` raises a `ValidationError`. -/
def mkAnswerWithConfidence (q : Question) (v : PyVal) (c : ℚ)
    (r : Option String) (imps : Option (List String)) :
    Except String AnswerWithConfidence :=
  if 0 ≤ c ∧ c ≤ 1 then .ok ⟨q, v, c, r, imps⟩
  else .error "ValidationError: confidence out of range"

/-!  ## The LLM service. -/

/-- The feature flags and client state of `LLMService.__init__`
(llm_service.py 67-92).  `hasClient` is `self.client is not None`. -/
structure LLMService where
  hasClient : Bool
  enable_confidence : Bool
  enable_actor_critic : Bool
  enable_few_shot : Bool
  enable_reasoning : Bool
  deriving Repr, DecidableEq

/-- The completion backend's parsed JSON replies, modelled as oracle
functions of the request data (the chat calls in `_generate_base_answer`,
`_critic_evaluate_answer` and `_refine_answer_with_feedback`).  Replies are
assumed well-typed; a malformed reply raises in Python and none of the
claims about the pipeline concern that path. -/
structure Backend where
  actorAnswer : String → Question → PyVal
  actorReasoning : String → Question → String
  criticConfidence : String → Question → PyVal → String → ℚ
  criticImprovements : String → Question → PyVal → String → List String
  refinedAnswer : String → Question → PyVal → List String → PyVal
  refinedReasoning : String → Question → PyVal → List String → String

/-- `_calculate_age` + `_extract_patient_context` (llm_service.py 124-145);
`today` stands for `datetime.now()`.  `none` models the `ValueError` raised
on a malformed `date_of_birth`. -/
def extractPatientContext (today : Date) (p : Patient) : Option String :=
  (calculateAge p.date_of_birth today).map fun age =>
    String.intercalate "\n"
      (["Patient Information:",
        "- Name: " ++ p.first_name ++ " " ++ p.last_name,
        "- Age: " ++ toString age ++ " years",
        "- Gender: " ++ p.gender,
        "- Date of Birth: " ++ p.date_of_birth,
        "\nCurrent Prescription:",
        "- Medication: " ++ p.prescription.medication,
        "- Dosage: " ++ p.prescription.dosage,
        "- Frequency: " ++ p.prescription.frequency,
        "- Duration: " ++ p.prescription.duration,
        "\nVisit Notes:"] ++
       (p.visit_notes.enum.map fun ⟨i, note⟩ => toString (i + 1) ++ ". " ++ note))

/-- The context assembly at the head of `generate_answer_with_confidence`
(llm_service.py 541-548): the patient context, extended with the
previously-answered block when `previous_answers` is truthy (non-empty). -/
def buildContext (today : Date) (p : Patient) (prev : List (String × PyVal)) :
    Option String :=
  (extractPatientContext today p).map fun base =>
    if prev ≠ [] then
      String.intercalate "\n"
        ([base, "\n### Previously Answered Questions:"] ++
         prev.map fun kv => "- " ++ kv.1 ++ ": " ++ pyStr kv.2)
    else base

/-- `_simulate_answer` (llm_service.py 310-327). -/
def simulateAnswer (ctx : String) (q : Question) : PyVal × String :=
  if q.type = "boolean" then
    if hasSubstr (pyLower q.key) "bmi" && (hasSubstr ctx "32" || hasSubstr ctx "35") then
      (.bool true, "Patient BMI exceeds threshold based on available data")
    else
      (.bool false, "Unable to determine from available information")
  else
    if q.key = "age" then (.str "45", "Age estimated from available patient data")
    else if q.key = "bmi" then (.str "32.5", "BMI value extracted from patient records")
    else (.str "Information not available", "Cannot determine from current data")

/-- The Actor's post-processing of the backend's `answer` field
(llm_service.py 296-308): text questions coerce via `str`, boolean questions
coerce a string via lowercase membership in `("true", "yes", "1")` and any
other value via `bool`. -/
def actorCoerce (qtype : String) (answer : PyVal) : PyVal :=
  if qtype = "text" then .str (pyStr answer)
  else if qtype = "boolean" then
    match answer with
    | .str s => .bool (["true", "yes", "1"].contains (pyLower s))
    | a => .bool (pyTruthy a)
  else answer

/-- The Refiner's post-processing of the backend's `refined_answer` field
(llm_service.py 519-531) — textually the same coercion as the Actor's. -/
def refinerCoerce (qtype : String) (answer : PyVal) : PyVal :=
  if qtype = "text" then .str (pyStr answer)
  else if qtype = "boolean" then
    match answer with
    | .str s => .bool (["true", "yes", "1"].contains (pyLower s))
    | a => .bool (pyTruthy a)
  else answer

/-- `_generate_base_answer` (llm_service.py 164-308): simulation when no
client is configured, otherwise the backend's reply post-processed to the
question's declared type. -/
def generateBaseAnswer (svc : LLMService) (be : Backend) (ctx : String)
    (q : Question) : PyVal × String :=
  if !svc.hasClient then simulateAnswer ctx q
  else (actorCoerce q.type (be.actorAnswer ctx q), be.actorReasoning ctx q)

/-- `_critic_evaluate_answer` (llm_service.py 329-433): the fixed
`(0.9, [])` bypass when actor-critic mode is disabled or no client is
configured, otherwise the backend's `confidence_score` and `improvements`. -/
def criticEvaluateAnswer (svc : LLMService) (be : Backend) (ctx : String)
    (q : Question) (proposed : PyVal) (reasoning : String) : ℚ × List String :=
  if !svc.enable_actor_critic || !svc.hasClient then (9/10, [])
  else (be.criticConfidence ctx q proposed reasoning,
        be.criticImprovements ctx q proposed reasoning)

/-- `_refine_answer_with_feedback` (llm_service.py 435-531): the original
answer is kept when no client is configured, otherwise the backend's
`refined_answer` post-processed to the question's declared type. -/
def refineAnswerWithFeedback (svc : LLMService) (be : Backend) (ctx : String)
    (q : Question) (orig : PyVal) (improvements : List String) : PyVal × String :=
  if !svc.hasClient then
    (orig, "Answer maintained (no LLM client available for refinement)")
  else (refinerCoerce q.type (be.refinedAnswer ctx q orig improvements),
        be.refinedReasoning ctx q orig improvements)

/-- `generate_answer_with_confidence` (llm_service.py 533-576): Actor →
Critic → (if confidence < 0.8 and improvements and actor-critic enabled)
Refiner → re-Critic, then the pydantic-validated `AnswerWithConfidence`
with the confidence masked to 1.0 when confidence scores are disabled and
`improvements if improvements else None`. -/
def generateAnswerWithConfidence (svc : LLMService) (be : Backend)
    (today : Date) (patient : Patient) (q : Question)
    (prev : List (String × PyVal)) : Except String AnswerWithConfidence :=
  match buildContext today patient prev with
  | none => .error "ValueError: invalid date_of_birth"
  | some ctx =>
    let (v1, r1) := generateBaseAnswer svc be ctx q
    let (c1, imps) := criticEvaluateAnswer svc be ctx q v1 r1
    if c1 < 4/5 ∧ imps ≠ [] ∧ svc.enable_actor_critic = true then
      let (v2, r2) := refineAnswerWithFeedback svc be ctx q v1 imps
      let (c2, _) := criticEvaluateAnswer svc be ctx q v2 r2
      mkAnswerWithConfidence q v2 (if svc.enable_confidence then c2 else 1)
        (some r2) (if imps = [] then none else some imps)
    else
      mkAnswerWithConfidence q v1 (if svc.enable_confidence then c1 else 1)
        (some r1) (if imps = [] then none else some imps)

/-!  Observation points on the pipeline, used to state the claims: the
first-pass answer, the first critic pass, the refinement trigger, the
refined answer and the second critic pass, each recomputed exactly as the
pipeline computes them from a context `ctx`. -/

/-- The Actor's first-pass `(value, reasoning)`. -/
def firstPass (svc : LLMService) (be : Backend) (ctx : String) (q : Question) :
    PyVal × String :=
  generateBaseAnswer svc be ctx q

/-- The first Critic pass `(confidence, improvements)` on the first-pass
answer. -/
def firstCritic (svc : LLMService) (be : Backend) (ctx : String) (q : Question) :
    ℚ × List String :=
  criticEvaluateAnswer svc be ctx q (firstPass svc be ctx q).1 (firstPass svc be ctx q).2

/-- Whether the refinement step fires: the `if` guard of
`generate_answer_with_confidence` step 3. -/
def refinementTriggered (svc : LLMService) (be : Backend) (ctx : String)
    (q : Question) : Prop :=
  (firstCritic svc be ctx q).1 < 4/5 ∧ (firstCritic svc be ctx q).2 ≠ [] ∧
    svc.enable_actor_critic = true

instance (svc : LLMService) (be : Backend) (ctx : String) (q : Question) :
    Decidable (refinementTriggered svc be ctx q) := by
  unfold refinementTriggered; infer_instance

/-- The Refiner's `(value, reasoning)` as the pipeline would compute it. -/
def refinedPass (svc : LLMService) (be : Backend) (ctx : String) (q : Question) :
    PyVal × String :=
  refineAnswerWithFeedback svc be ctx q (firstPass svc be ctx q).1
    (firstCritic svc be ctx q).2

/-- The second Critic pass on the refined answer. -/
def secondCritic (svc : LLMService) (be : Backend) (ctx : String) (q : Question) :
    ℚ × List String :=
  criticEvaluateAnswer svc be ctx q (refinedPass svc be ctx q).1
    (refinedPass svc be ctx q).2

/-!  ## Batch processing (`process_questions_batch`, llm_service.py 578-601). -/

/-- One iteration of the `process_questions_batch` loop over the state
`(answers_with_confidence, answered_questions)`: skip when `visible_if` is
truthy and evaluates false, otherwise answer (propagating any exception) and
record the answer in both the list and the accumulated map. -/
def batchStep (svc : LLMService) (be : Backend) (today : Date)
    (patient : Patient)
    (st : List AnswerWithConfidence × List (String × PyVal)) (q : Question) :
    Except String (List AnswerWithConfidence × List (String × PyVal)) :=
  if (q.visible_if.getD "") ≠ "" ∧ evalCondition (q.visible_if.getD "") st.2 = false then
    .ok st
  else
    match generateAnswerWithConfidence svc be today patient q st.2 with
    | .error e => .error e
    | .ok a => .ok (st.1 ++ [a], pyDictSet st.2 q.key a.value)

/-- The `process_questions_batch` loop from an arbitrary starting state. -/
def batchFold (svc : LLMService) (be : Backend) (today : Date)
    (patient : Patient)
    (st : List AnswerWithConfidence × List (String × PyVal))
    (questions : List Question) :
    Except String (List AnswerWithConfidence × List (String × PyVal)) :=
  questions.foldlM (batchStep svc be today patient) st

/-- `process_questions_batch` (llm_service.py 578-601), returning the list of
answers of the visible questions. -/
def processQuestionsBatch (svc : LLMService) (be : Backend) (today : Date)
    (patient : Patient) (questions : List Question) :
    Except String (List AnswerWithConfidence) :=
  (batchFold svc be today patient ([], []) questions).map (fun st => st.1)

/-!  ## Evaluation harness (`app/evaluation.py`). -/

/-- Python `float(s)` on a string: optional surrounding whitespace and sign,
a decimal mantissa with optional point, optional exponent.  (`inf`, `nan`
and digit-group underscores, which the source data never produces, are not
modelled.)  `none` models the `ValueError` on a non-numeric string. -/
def parseFloat? (s : String) : Option ℚ :=
  let l := (pyStrip s).data
  let sgn : ℚ := match l with | '-' :: _ => -1 | _ => 1
  let l1 := match l with | '+' :: t => t | '-' :: t => t | _ => l
  let intPart := l1.takeWhile isAsciiDigit
  let rest1 := l1.dropWhile isAsciiDigit
  let fracPart := match rest1 with | '.' :: t => t.takeWhile isAsciiDigit | _ => []
  let rest2 := match rest1 with | '.' :: t => t.dropWhile isAsciiDigit | _ => rest1
  if intPart = [] ∧ fracPart = [] then none
  else
    let mantissa : ℚ :=
      sgn * ((digitsToNat intPart : ℚ) + (digitsToNat fracPart : ℚ) / (10 : ℚ) ^ fracPart.length)
    match rest2 with
    | [] => some mantissa
    | e :: t =>
      if e = 'e' ∨ e = 'E' then
        let esgn : Int := match t with | '-' :: _ => -1 | _ => 1
        let t1 := match t with | '+' :: u => u | '-' :: u => u | _ => t
        let ed := t1.takeWhile isAsciiDigit
        if ed ≠ [] ∧ t1.dropWhile isAsciiDigit = [] then
          some (mantissa * (10 : ℚ) ^ (esgn * (digitsToNat ed : Int)))
        else none
      else none

/-- The unit-stripping of `_check_answer_correctness` (evaluation.py
310-311): drop every `"kg/m²"` and `"years"` substring, then strip. -/
def stripUnits (s : String) : String :=
  pyStrip (pyReplace (pyReplace s "kg/m²" "") "years" "")

/-- `_check_answer_correctness` (evaluation.py 295-320): exact equality,
else membership in the truthy `acceptable_variations`, else — for two
strings — numeric equality of the unit-stripped values, a parse failure
falling through to `False`. -/
def checkAnswerCorrectness (actual expected : PyVal)
    (acceptableVariations : Option (List PyVal)) : Bool :=
  if pyEq actual expected then true
  else if (match acceptableVariations with
           | some l => l ≠ [] && l.any (fun v => pyEq actual v)
           | none => false) then true
  else
    match actual, expected with
    | .str sa, .str se =>
      (match parseFloat? (stripUnits sa), parseFloat? (stripUnits se) with
       | some a, some b => a = b
       | _, _ => false)
    | _, _ => false

/-- `_evaluate_reasoning_quality` (evaluation.py 322-348): word-coverage of
the expected reasoning inside the actual one, scaled by 1.2 and capped at 1,
halved for reasonings shorter than 20 characters. -/
def evaluateReasoningQuality (actual expected : String) : ℚ :=
  if actual = "" then 0
  else
    let keyElements := pySplitWs (pyLower expected)
    let actualLower := pyLower actual
    let matched := (keyElements.filter (fun e => hasSubstr actualLower e)).length
    let coverage : ℚ :=
      if keyElements.length ≠ 0 then (matched : ℚ) / (keyElements.length : ℚ) else 0
    let quality := min 1 (coverage * (6/5))
    if actual.length < 20 then quality * (1/2) else quality

/-- `TestCase` (evaluation.py 49-57).  `expected_answer` and the variations
are `str | bool` in the source; `PyVal` carries them here. -/
structure TestCase where
  patient : Patient
  question : Question
  expected_answer : PyVal
  acceptable_variations : Option (List PyVal) := none
  reasoning : String
  tags : List String := []

/-- `EvaluationResult` (evaluation.py 60-72). -/
structure EvaluationResult where
  test_case_id : String
  question_key : String
  expected : PyVal
  actual : PyVal
  confidence : ℚ
  is_correct : Bool
  is_acceptable : Bool
  reasoning_quality : ℚ
  response_time_ms : ℚ
  error : Option String := none
  deriving Repr, DecidableEq

/-- `evaluate_single_test` (evaluation.py 245-293).  `run` is the pipeline
call `generate_answer_with_confidence` for this test case (an `Except`
carrying any exception it raises); `idNum` models the CPython `id(test_case)`
and `elapsed` the measured wall-clock duration.  Every exception of the
pipeline is captured into a failed result. -/
def evaluateSingleTest (run : TestCase → Except String AnswerWithConfidence)
    (idNum : Nat) (elapsed : ℚ) (tc : TestCase) : EvaluationResult :=
  match run tc with
  | .ok answer =>
    let isCorrect :=
      checkAnswerCorrectness answer.value tc.expected_answer tc.acceptable_variations
    { test_case_id := tc.question.key ++ "_" ++ toString idNum
      question_key := tc.question.key
      expected := tc.expected_answer
      actual := answer.value
      confidence := answer.confidence
      is_correct := isCorrect
      is_acceptable :=
        isCorrect || (tc.acceptable_variations.getD []).any (fun v => pyEq answer.value v)
      reasoning_quality := evaluateReasoningQuality (answer.reasoning.getD "") tc.reasoning
      response_time_ms := elapsed
      error := none }
  | .error e =>
    { test_case_id := tc.question.key ++ "_" ++ toString idNum
      question_key := tc.question.key
      expected := tc.expected_answer
      actual := .str ""
      confidence := 0
      is_correct := false
      is_acceptable := false
      reasoning_quality := 0
      response_time_ms := elapsed
      error := some e }

/-- The per-tag accumulator of `_analyze_by_category` (evaluation.py
403-434). -/
structure CategoryStats where
  total : ℚ
  passed : ℚ
  accuracy : ℚ
  avg_confidence : ℚ
  avg_response_time : ℚ
  deriving Repr, DecidableEq

/-- `_analyze_by_category` (evaluation.py 403-434): accumulate per tag over
`zip(test_cases, results)`, then divide through by each tag's total. -/
def analyzeByCategory (testCases : List TestCase)
    (results : List EvaluationResult) : List (String × CategoryStats) :=
  let cats := (testCases.zip results).foldl
    (fun cats tr =>
      tr.1.tags.foldl
        (fun cats tag =>
          let cur := (pyDictGet? cats tag).getD ⟨0, 0, 0, 0, 0⟩
          pyDictSet cats tag
            { cur with
              total := cur.total + 1
              passed := cur.passed + (if tr.2.is_acceptable then 1 else 0)
              avg_confidence := cur.avg_confidence + tr.2.confidence
              avg_response_time := cur.avg_response_time + tr.2.response_time_ms })
        cats)
    []
  cats.map fun kv =>
    if kv.2.total > 0 then
      (kv.1, { kv.2 with
               accuracy := kv.2.passed / kv.2.total
               avg_confidence := kv.2.avg_confidence / kv.2.total
               avg_response_time := kv.2.avg_response_time / kv.2.total })
    else kv

/-- Round-half-even on an exact rational, the rounding of CPython's fixed
precision float formatting. -/
def roundHalfEven (q : ℚ) : Int :=
  let f := ⌊q⌋
  let frac := q - f
  if frac < 1/2 then f
  else if 1/2 < frac then f + 1
  else if f % 2 = 0 then f else f + 1

def padTwo (n : Nat) : String :=
  if n < 10 then "0" ++ toString n else toString n

/-- The f-string percent format `\x7bx:.2%\x7d` used for the problem-area
strings (exact for the values exercised here; CPython rounds the IEEE double,
approximated by decimal round-half-even). -/
def formatPercent2 (x : ℚ) : String :=
  let scaled := roundHalfEven (x * 10000)
  toString (scaled / 100) ++ "." ++ padTwo (scaled % 100).toNat ++ "%"

/-- `_identify_problem_areas` (evaluation.py 436-463). -/
def identifyProblemAreas (results : List EvaluationResult)
    (categories : List (String × CategoryStats)) : List String :=
  let catProblems := categories.filterMap fun kv =>
    if kv.2.accuracy < 4/5 then
      some ("Low accuracy in " ++ kv.1 ++ ": " ++ formatPercent2 kv.2.accuracy)
    else none
  let overconfident := results.filter fun r => !r.is_acceptable && r.confidence > 7/10
  let ocProblems :=
    if (overconfident.length : ℚ) > (results.length : ℚ) * (1/10) then
      ["Model is overconfident on " ++ toString overconfident.length ++ " incorrect answers"]
    else []
  let slow := results.filter fun r => r.response_time_ms > 5000
  let slowProblems :=
    if slow ≠ [] then [toString slow.length ++ " responses took over 5 seconds"]
    else []
  catProblems ++ ocProblems ++ slowProblems

/-- `_generate_recommendations` (evaluation.py 465-496). -/
def generateRecommendations (accuracy calibrationError : ℚ)
    (problemAreas : List String) : List String :=
  (if accuracy < 9/10 then
    ["Consider adding more few-shot examples for better accuracy"] else []) ++
  (if calibrationError > 3/20 then
    ["Confidence scores need calibration - consider adjusting the critic model"] else []) ++
  (if problemAreas.any (fun p => hasSubstr (pyLower p) "bmi") then
    ["Add specific training examples for BMI calculations and interpretations"] else []) ++
  (if problemAreas.any (fun p => hasSubstr (pyLower p) "boolean") then
    ["Improve boolean question handling with clearer decision criteria"] else []) ++
  (if problemAreas.length > 3 then
    ["Consider fine-tuning the model on medical prior authorization data"] else [])

def meanQ (l : List ℚ) : ℚ :=
  l.foldl (· + ·) 0 / (l.length : ℚ)

/-- `EvaluationReport` (evaluation.py 75-88); the `timestamp` is the wall
clock at report creation. -/
structure EvaluationReport where
  timestamp : ℚ
  total_tests : Nat
  passed : Nat
  failed : Nat
  accuracy : ℚ
  average_confidence : ℚ
  confidence_calibration_error : ℚ
  average_response_time_ms : ℚ
  results_by_category : List (String × CategoryStats)
  problem_areas : List String
  recommendations : List String

/-- `run_full_evaluation` (evaluation.py 350-401).  `idOf` and `elapsedOf`
give each test case's CPython object id and measured duration by position;
`now` is the report timestamp.  (The append to the process-lifetime
`historical_results` list touches no claim and is not modelled.) -/
def runFullEvaluation (run : TestCase → Except String AnswerWithConfidence)
    (idOf : Nat → Nat) (elapsedOf : Nat → ℚ) (now : ℚ)
    (testCases : List TestCase) : EvaluationReport :=
  let results := testCases.enum.map fun it =>
    evaluateSingleTest run (idOf it.1) (elapsedOf it.1) it.2
  let total := results.length
  let passed := (results.filter (fun r => r.is_acceptable)).length
  let failed := total - passed
  let accuracy : ℚ := if total > 0 then (passed : ℚ) / (total : ℚ) else 0
  let confidences := (results.filter (fun r => r.confidence > 0)).map (fun r => r.confidence)
  let avgConfidence := if confidences ≠ [] then meanQ confidences else 0
  let calibrationError := |avgConfidence - accuracy|
  let responseTimes := results.map (fun r => r.response_time_ms)
  let avgResponseTime := if responseTimes ≠ [] then meanQ responseTimes else 0
  let cats := analyzeByCategory testCases results
  let problems := identifyProblemAreas results cats
  { timestamp := now
    total_tests := total
    passed := passed
    failed := failed
    accuracy := accuracy
    average_confidence := avgConfidence
    confidence_calibration_error := calibrationError
    average_response_time_ms := avgResponseTime
    results_by_category := cats
    problem_areas := problems
    recommendations := generateRecommendations accuracy calibrationError problems }

/-!  ## Concrete fixtures, used by the witnesses below. -/

def tPrescription : Prescription :=
  { medication := "Zepbound", dosage := "10 mg", frequency := "once weekly",
    duration := "ongoing" }

def tPatient : Patient :=
  { first_name := "Test", last_name := "Patient1", date_of_birth := "1975-01-01",
    gender := "Male", prescription := tPrescription,
    visit_notes := ["Patient height: 170 cm, weight: 95 kg",
                    "BMI calculated at 32.9 kg/m²"] }

def tQuestion : Question :=
  { type := "text", key := "bmi", content := "What is the patient's BMI?" }

def tBoolQuestion : Question :=
  { type := "boolean", key := "bmi_ge_30", content := "Is the BMI at least 30?" }

def tHiddenQuestion : Question :=
  { type := "text", key := "followup", content := "Which comorbidity?",
    visible_if := some "\x7bbmi_ge_30\x7d = true" }

/-- A backend whose critic scores the first-pass reasoning low with one
improvement and anything else high, so the refinement loop is exercised. -/
def tBackend : Backend :=
  { actorAnswer := fun _ _ => .str "32.9 kg/m²"
    actorReasoning := fun _ _ => "stated in visit notes"
    criticConfidence := fun _ _ _ r => if r = "stated in visit notes" then 1/2 else 9/10
    criticImprovements := fun _ _ _ r =>
      if r = "stated in visit notes" then ["Include the unit"] else []
    refinedAnswer := fun _ _ _ _ => .str "32.9 kg/m²"
    refinedReasoning := fun _ _ _ _ => "BMI is 32.9 kg/m² per the visit notes" }

def tService : LLMService :=
  { hasClient := true, enable_confidence := true, enable_actor_critic := true,
    enable_few_shot := true, enable_reasoning := false }

def tToday : Date := ⟨2024, 6, 14⟩

def tCtx : String := (buildContext tToday tPatient []).getD ""

/-- The answer the fixture pipeline produces: refined value, the second
critic pass's confidence, the first critic pass's improvements. -/
def tAnswer : AnswerWithConfidence :=
  { question := tQuestion, value := .str "32.9 kg/m²", confidence := 9/10,
    reasoning := some "BMI is 32.9 kg/m² per the visit notes",
    improvements := some ["Include the unit"] }

def tTestCase : TestCase :=
  { patient := tPatient, question := tQuestion, expected_answer := .str "32.9",
    acceptable_variations := some [.str "32.9 kg/m²", .str "33", .str "32.87"],
    reasoning := "BMI is explicitly stated in visit notes",
    tags := ["bmi", "calculation", "text_answer"] }

def tServiceNoConf : LLMService :=
  { tService with enable_confidence := false }

/-- A pipeline oracle whose every call raises, for exercising the
harness's exception capture. -/
def tFailRun : TestCase → Except String AnswerWithConfidence :=
  fun _ => .error "boom"

def tAnswerNoConf : AnswerWithConfidence :=
  { tAnswer with confidence := 1 }

end PRQA

namespace PRQA

/-!  ## Helper lemmas. -/

theorem tCtx_spec : buildContext tToday tPatient [] = some tCtx := rfl

theorem mkAnswer_ok_iff {q : Question} {v : PyVal} {c : ℚ} {r : Option String}
    {i : Option (List String)} {a : AnswerWithConfidence} :
    mkAnswerWithConfidence q v c r i = .ok a ↔
      (0 ≤ c ∧ c ≤ 1) ∧ a = ⟨q, v, c, r, i⟩ := by
  unfold mkAnswerWithConfidence
  split
  · rename_i h
    constructor
    · intro hok
      exact ⟨h, (Except.ok.injEq _ _ ▸ hok.symm :)⟩
    · rintro ⟨-, rfl⟩
      rfl
  · rename_i h
    constructor
    · intro hok
      exact absurd hok (by simp)
    · rintro ⟨hc, -⟩
      exact absurd hc h

/-- `generate_answer_with_confidence` in terms of the observation points:
one conditional refinement pass, the second critic score final. -/
theorem generate_spec (svc : LLMService) (be : Backend) (today : Date)
    (patient : Patient) (q : Question) (prev : List (String × PyVal))
    (ctx : String) (hctx : buildContext today patient prev = some ctx) :
    generateAnswerWithConfidence svc be today patient q prev =
      (if refinementTriggered svc be ctx q then
        mkAnswerWithConfidence q (refinedPass svc be ctx q).1
          (if svc.enable_confidence then (secondCritic svc be ctx q).1 else 1)
          (some (refinedPass svc be ctx q).2)
          (if (firstCritic svc be ctx q).2 = [] then none
           else some (firstCritic svc be ctx q).2)
      else
        mkAnswerWithConfidence q (firstPass svc be ctx q).1
          (if svc.enable_confidence then (firstCritic svc be ctx q).1 else 1)
          (some (firstPass svc be ctx q).2)
          (if (firstCritic svc be ctx q).2 = [] then none
           else some (firstCritic svc be ctx q).2)) := by
  rw [generateAnswerWithConfidence, hctx]
  rfl

theorem actorCoerce_text (a : PyVal) : actorCoerce "text" a = .str (pyStr a) := rfl

theorem actorCoerce_boolean (a : PyVal) : ∃ b, actorCoerce "boolean" a = .bool b := by
  cases a <;> exact ⟨_, rfl⟩

theorem refinerCoerce_text (a : PyVal) :
    refinerCoerce "text" a = .str (pyStr a) := rfl

theorem refinerCoerce_boolean (a : PyVal) :
    ∃ b, refinerCoerce "boolean" a = .bool b := by
  cases a <;> exact ⟨_, rfl⟩

theorem firstPass_text (svc : LLMService) (be : Backend) (ctx : String)
    {q : Question} (hq : q.type = "text") :
    ∃ s, (firstPass svc be ctx q).1 = .str s := by
  rw [firstPass, generateBaseAnswer]
  by_cases hc : svc.hasClient
  · rw [if_neg (by simp [hc])]
    exact ⟨_, by rw [hq, actorCoerce_text]⟩
  · rw [if_pos (by simp [hc]), simulateAnswer, hq, if_neg (by decide)]
    by_cases h1 : q.key = "age"
    · exact ⟨_, by rw [if_pos h1]⟩
    · rw [if_neg h1]
      by_cases h2 : q.key = "bmi"
      · exact ⟨_, by rw [if_pos h2]⟩
      · exact ⟨_, by rw [if_neg h2]⟩

theorem firstPass_boolean (svc : LLMService) (be : Backend) (ctx : String)
    {q : Question} (hq : q.type = "boolean") :
    ∃ b, (firstPass svc be ctx q).1 = .bool b := by
  rw [firstPass, generateBaseAnswer]
  by_cases hc : svc.hasClient
  · rw [if_neg (by simp [hc]), hq]
    obtain ⟨b, hb⟩ := actorCoerce_boolean (be.actorAnswer ctx q)
    exact ⟨b, by rw [hb]⟩
  · rw [if_pos (by simp [hc]), simulateAnswer, if_pos hq]
    by_cases h1 : (hasSubstr (pyLower q.key) "bmi" &&
        (hasSubstr ctx "32" || hasSubstr ctx "35")) = true
    · exact ⟨_, by rw [if_pos h1]⟩
    · exact ⟨_, by rw [if_neg h1]⟩

theorem refinedPass_text (svc : LLMService) (be : Backend) (ctx : String)
    {q : Question} (hq : q.type = "text") :
    ∃ s, (refinedPass svc be ctx q).1 = .str s := by
  rw [refinedPass, refineAnswerWithFeedback]
  by_cases hc : svc.hasClient
  · rw [if_neg (by simp [hc]), hq]
    exact ⟨_, refinerCoerce_text _⟩
  · rw [if_pos (by simp [hc])]
    exact firstPass_text svc be ctx hq

theorem refinedPass_boolean (svc : LLMService) (be : Backend) (ctx : String)
    {q : Question} (hq : q.type = "boolean") :
    ∃ b, (refinedPass svc be ctx q).1 = .bool b := by
  rw [refinedPass, refineAnswerWithFeedback]
  by_cases hc : svc.hasClient
  · rw [if_neg (by simp [hc]), hq]
    obtain ⟨b, hb⟩ :=
      refinerCoerce_boolean (be.refinedAnswer ctx q (firstPass svc be ctx q).1
        (firstCritic svc be ctx q).2)
    exact ⟨b, hb⟩
  · rw [if_pos (by simp [hc])]
    exact firstPass_boolean svc be ctx hq

/-- The fixture pipeline run computed end to end: the first critic pass
scores 1/2 with one improvement, refinement fires, the second critic pass's
9/10 is final. -/
theorem tRun_eq :
    generateAnswerWithConfidence tService tBackend tToday tPatient tQuestion [] =
      .ok tAnswer := by
  rw [generateAnswerWithConfidence, tCtx_spec]
  norm_num [generateBaseAnswer, criticEvaluateAnswer, refineAnswerWithFeedback,
    mkAnswerWithConfidence, refinerCoerce, actorCoerce, pyStr, tQuestion, tService,
    tBackend, tAnswer]
  simp only [if_neg
    (show ¬("BMI is 32.9 kg/m² per the visit notes" = "stated in visit notes") from
      by decide)]
  norm_num

/-- The refinement guard holds for the fixtures. -/
theorem tTriggered : refinementTriggered tService tBackend tCtx tQuestion := by
  unfold refinementTriggered firstCritic firstPass criticEvaluateAnswer generateBaseAnswer
  norm_num [tService, tBackend]

/-- The fixture pipeline run with confidence scores disabled. -/
theorem tRunNoConf_eq :
    generateAnswerWithConfidence tServiceNoConf tBackend tToday tPatient tQuestion [] =
      .ok tAnswerNoConf := by
  have hctx : buildContext tToday tPatient [] = some tCtx := rfl
  rw [generateAnswerWithConfidence, hctx]
  norm_num [generateBaseAnswer, criticEvaluateAnswer, refineAnswerWithFeedback,
    mkAnswerWithConfidence, refinerCoerce, actorCoerce, pyStr, tQuestion, tService,
    tServiceNoConf, tBackend, tAnswer, tAnswerNoConf]

theorem pyStrip_eq_rdrop (s : String) :
    pyStrip s = ⟨List.rdropWhile pyIsSpace (s.data.dropWhile pyIsSpace)⟩ := rfl

theorem dropWhile_rdropWhile_dropWhile (l : List Char) :
    (List.rdropWhile pyIsSpace (l.dropWhile pyIsSpace)).dropWhile pyIsSpace =
      List.rdropWhile pyIsSpace (l.dropWhile pyIsSpace) := by
  rw [List.dropWhile_eq_self_iff]
  intro hl
  have hpre := List.rdropWhile_prefix pyIsSpace (l.dropWhile pyIsSpace)
  have hlen : 0 < (l.dropWhile pyIsSpace).length := lt_of_lt_of_le hl hpre.length_le
  have h0 : (List.rdropWhile pyIsSpace (l.dropWhile pyIsSpace)).get ⟨0, hl⟩ =
      (l.dropWhile pyIsSpace).get ⟨0, hlen⟩ := by
    simp [List.get_eq_getElem, hpre.getElem hl]
  rw [h0]
  exact List.dropWhile_eq_self_iff.mp (List.dropWhile_idempotent pyIsSpace l) hlen

/-- Python `strip()` is idempotent, which makes the doubled strip on the
parts of an `" and "` split (one in the recursive call, one in the atomic
branch) collapse to one. -/
theorem pyStrip_idem (s : String) : pyStrip (pyStrip s) = pyStrip s := by
  rw [pyStrip_eq_rdrop s, pyStrip_eq_rdrop]
  show (⟨List.rdropWhile pyIsSpace ((List.rdropWhile pyIsSpace
    (s.data.dropWhile pyIsSpace)).dropWhile pyIsSpace)⟩ : String) = _
  rw [dropWhile_rdropWhile_dropWhile, List.rdropWhile_idempotent]

/-!  ## Claim theorems. -/

/-- C1: the single-question pipeline invokes the refinement step iff the
critic's confidence is < 0.8 AND its improvements list is non-empty AND
actor-critic mode is enabled; refinement happens at most once (the returned
answer is either the first pass or the single refined pass), the second
critic pass's confidence is final after refinement, and with actor-critic
mode disabled the pipeline returns the Actor's first-pass value unchanged
regardless of confidence. -/
theorem refinement_fires_iff_low_confidence (svc : LLMService) (be : Backend)
    (today : Date) (patient : Patient) (q : Question)
    (prev : List (String × PyVal)) (ctx : String)
    (hctx : buildContext today patient prev = some ctx) :
    (refinementTriggered svc be ctx q ↔
      (firstCritic svc be ctx q).1 < 4/5 ∧ (firstCritic svc be ctx q).2 ≠ [] ∧
        svc.enable_actor_critic = true)
    ∧ (refinementTriggered svc be ctx q →
        ∀ a, generateAnswerWithConfidence svc be today patient q prev = .ok a →
          a.value = (refinedPass svc be ctx q).1 ∧
          a.confidence =
            (if svc.enable_confidence then (secondCritic svc be ctx q).1 else 1))
    ∧ (¬ refinementTriggered svc be ctx q →
        ∀ a, generateAnswerWithConfidence svc be today patient q prev = .ok a →
          a.value = (firstPass svc be ctx q).1 ∧
          a.confidence =
            (if svc.enable_confidence then (firstCritic svc be ctx q).1 else 1))
    ∧ (svc.enable_actor_critic = false →
        ∀ a, generateAnswerWithConfidence svc be today patient q prev = .ok a →
          a.value = (firstPass svc be ctx q).1) := by
  refine ⟨Iff.rfl, ?_, ?_, ?_⟩
  · intro ht a hok
    rw [generate_spec svc be today patient q prev ctx hctx, if_pos ht] at hok
    obtain ⟨-, rfl⟩ := mkAnswer_ok_iff.mp hok
    exact ⟨rfl, rfl⟩
  · intro ht a hok
    rw [generate_spec svc be today patient q prev ctx hctx, if_neg ht] at hok
    obtain ⟨-, rfl⟩ := mkAnswer_ok_iff.mp hok
    exact ⟨rfl, rfl⟩
  · intro hac a hok
    have ht : ¬ refinementTriggered svc be ctx q := by
      rw [refinementTriggered]
      rintro ⟨-, -, h⟩
      rw [hac] at h
      exact Bool.false_ne_true h
    rw [generate_spec svc be today patient q prev ctx hctx, if_neg ht] at hok
    obtain ⟨-, rfl⟩ := mkAnswer_ok_iff.mp hok
    rfl

/-- Witness for C1 at the fixtures: the refinement guard fires, so the
returned answer is the refined value with the second critic pass's score. -/
theorem refinement_fires_iff_low_confidence_witness :
    tAnswer.value = (refinedPass tService tBackend tCtx tQuestion).1 ∧
    tAnswer.confidence =
      (if tService.enable_confidence
       then (secondCritic tService tBackend tCtx tQuestion).1 else 1) :=
  (refinement_fires_iff_low_confidence tService tBackend tToday tPatient
    tQuestion [] tCtx tCtx_spec).2.1 tTriggered tAnswer tRun_eq

/-- C2: for `text` questions the pipeline's value (first-pass and
refined-pass) is a string; for `boolean` questions it is a native boolean,
a string backend answer being coerced by case-insensitive membership in
("true", "yes", "1"); and the coercion is the same function in the Actor's
and in the Refiner's post-processing. -/
theorem answer_type_discipline :
    (∀ qtype a, actorCoerce qtype a = refinerCoerce qtype a)
    ∧ (∀ a, actorCoerce "text" a = .str (pyStr a))
    ∧ (∀ s, actorCoerce "boolean" (.str s) =
        .bool (["true", "yes", "1"].contains (pyLower s)))
    ∧ (∀ (svc : LLMService) (be : Backend) (today : Date) (patient : Patient)
        (q : Question) (prev : List (String × PyVal)) a, q.type = "text" →
        generateAnswerWithConfidence svc be today patient q prev = .ok a →
        ∃ s, a.value = .str s)
    ∧ (∀ (svc : LLMService) (be : Backend) (today : Date) (patient : Patient)
        (q : Question) (prev : List (String × PyVal)) a, q.type = "boolean" →
        generateAnswerWithConfidence svc be today patient q prev = .ok a →
        ∃ b, a.value = .bool b) := by
  refine ⟨fun qtype a => rfl, fun a => rfl, fun s => rfl, ?_, ?_⟩
  · intro svc be today patient q prev a hq hok
    cases hbc : buildContext today patient prev with
    | none =>
      rw [generateAnswerWithConfidence, hbc] at hok
      exact absurd hok (by simp)
    | some ctx =>
      rw [generate_spec svc be today patient q prev ctx hbc] at hok
      split at hok
      · obtain ⟨-, rfl⟩ := mkAnswer_ok_iff.mp hok
        exact refinedPass_text svc be ctx hq
      · obtain ⟨-, rfl⟩ := mkAnswer_ok_iff.mp hok
        exact firstPass_text svc be ctx hq
  · intro svc be today patient q prev a hq hok
    cases hbc : buildContext today patient prev with
    | none =>
      rw [generateAnswerWithConfidence, hbc] at hok
      exact absurd hok (by simp)
    | some ctx =>
      rw [generate_spec svc be today patient q prev ctx hbc] at hok
      split at hok
      · obtain ⟨-, rfl⟩ := mkAnswer_ok_iff.mp hok
        exact refinedPass_boolean svc be ctx hq
      · obtain ⟨-, rfl⟩ := mkAnswer_ok_iff.mp hok
        exact firstPass_boolean svc be ctx hq

/-- Witness for C2 at the fixtures: the text question's answer value is a
string. -/
theorem answer_type_discipline_witness : ∃ s, tAnswer.value = PyVal.str s :=
  answer_type_discipline.2.2.2.1 tService tBackend tToday tPatient tQuestion []
    tAnswer rfl tRun_eq

/-- C5: every `AnswerWithConfidence` the single-question pipeline returns
carries a confidence in [0, 1], first-pass or refined-pass alike. -/
theorem confidence_within_unit_interval (svc : LLMService) (be : Backend)
    (today : Date) (patient : Patient) (q : Question)
    (prev : List (String × PyVal)) (a : AnswerWithConfidence)
    (h : generateAnswerWithConfidence svc be today patient q prev = .ok a) :
    0 ≤ a.confidence ∧ a.confidence ≤ 1 := by
  cases hbc : buildContext today patient prev with
  | none =>
    rw [generateAnswerWithConfidence, hbc] at h
    exact absurd h (by simp)
  | some ctx =>
    rw [generate_spec svc be today patient q prev ctx hbc] at h
    split at h <;>
    · obtain ⟨hc, rfl⟩ := mkAnswer_ok_iff.mp h
      exact hc

/-- Witness for C5 at the fixtures. -/
theorem confidence_within_unit_interval_witness :
    0 ≤ tAnswer.confidence ∧ tAnswer.confidence ≤ 1 :=
  confidence_within_unit_interval tService tBackend tToday tPatient tQuestion []
    tAnswer tRun_eq

/-- C10: with `ENABLE_CONFIDENCE_SCORES` disabled every returned answer has
confidence exactly 1.0, while the refinement decision is unchanged by the
flag (it is driven by the critic's real score; the score is discarded only
at the return boundary). -/
theorem disabled_confidence_masks_returned_score (svc : LLMService) (be : Backend) :
    (∀ (today : Date) (patient : Patient) (q : Question)
       (prev : List (String × PyVal)) a, svc.enable_confidence = false →
       generateAnswerWithConfidence svc be today patient q prev = .ok a →
       a.confidence = 1)
    ∧ (∀ (b : Bool) (ctx : String) (q : Question),
        refinementTriggered { svc with enable_confidence := b } be ctx q ↔
          refinementTriggered svc be ctx q) := by
  constructor
  · intro today patient q prev a hflag hok
    cases hbc : buildContext today patient prev with
    | none =>
      rw [generateAnswerWithConfidence, hbc] at hok
      exact absurd hok (by simp)
    | some ctx =>
      rw [generate_spec svc be today patient q prev ctx hbc] at hok
      split at hok <;>
      · obtain ⟨-, rfl⟩ := mkAnswer_ok_iff.mp hok
        simp [hflag]
  · intro b ctx q
    exact Iff.rfl

/-- Witness for C10 at the fixtures with the flag off: the returned
confidence is 1 even though the critic scored the refined answer 9/10. -/
theorem disabled_confidence_masks_returned_score_witness :
    tAnswerNoConf.confidence = 1 :=
  (disabled_confidence_masks_returned_score tServiceNoConf tBackend).1 tToday
    tPatient tQuestion [] tAnswerNoConf rfl tRunNoConf_eq

/-- C3: visibility conditions split on `" and "` with every clause
required; a clause matching the pattern holds iff its key is in the
accumulated map and the string form of the value equals the clause value
case-insensitively; a matching clause with an absent key is false; the
empty condition is always visible. -/
theorem condition_evaluation_semantics (m : List (String × PyVal)) :
    evalCondition "" m = true
    ∧ (∀ cond, hasSubstr cond " and " = true →
        evalCondition cond m =
          (pySplitOn cond " and ").all (fun part => evalSingle (pyStrip part) m))
    ∧ (∀ clause key v, hasSubstr clause " and " = false →
        matchClause (pyStrip clause) = some (key, v) →
        evalCondition clause m =
          (match pyDictGet? m key with
           | none => false
           | some x => decide (pyLower (pyStr x) = pyLower (pyStrip v))))
    ∧ (∀ clause key v, hasSubstr clause " and " = false →
        matchClause (pyStrip clause) = some (key, v) →
        pyDictGet? m key = none → evalCondition clause m = false) := by
  refine ⟨rfl, ?_, ?_, ?_⟩
  · intro cond h
    have hne : ¬(cond = "") := fun he => by
      subst he; exact absurd h (by decide)
    rw [evalCondition, if_neg hne, if_pos h]
  · intro clause key v hand hmc
    have hne : ¬(clause = "") := fun he => by
      subst he
      rw [show matchClause (pyStrip "") = none from by decide] at hmc
      exact Option.noConfusion hmc
    rw [evalCondition, if_neg hne, if_neg (by simp [hand])]
    simp only [evalSingle]
    rw [hmc]
  · intro clause key v hand hmc hget
    have hne : ¬(clause = "") := fun he => by
      subst he
      rw [show matchClause (pyStrip "") = none from by decide] at hmc
      exact Option.noConfusion hmc
    rw [evalCondition, if_neg hne, if_neg (by simp [hand])]
    simp only [evalSingle]
    rw [hmc]
    dsimp only
    rw [hget]

/-- Witness for C3: the spec's concrete cases of the grammar. -/
theorem condition_evaluation_semantics_witness :
    evalCondition "\x7ba\x7d = true" [("a", PyVal.bool true)] = true
    ∧ evalCondition "\x7ba\x7d = true" [] = false
    ∧ evalCondition "\x7ba\x7d = true and \x7bb\x7d = false"
        [("a", PyVal.bool true), ("b", PyVal.bool false)] = true := by
  refine ⟨?_, ?_, ?_⟩
  · have h := (condition_evaluation_semantics [("a", PyVal.bool true)]).2.2.1
      "\x7ba\x7d = true" "a" "true" (by decide) (by decide)
    rw [h]; decide
  · exact (condition_evaluation_semantics []).2.2.2
      "\x7ba\x7d = true" "a" "true" (by decide) (by decide) (by decide)
  · have h := (condition_evaluation_semantics
      [("a", PyVal.bool true), ("b", PyVal.bool false)]).2.1
      "\x7ba\x7d = true and \x7bb\x7d = false" (by decide)
    rw [h]; decide

/-- C9: a non-empty condition whose clauses do not match the
`\x7bkey\x7d = value` pattern evaluates to true, so a syntactically invalid
visibility condition leaves the question visible (processed, not
skipped). -/
theorem malformed_clause_treated_visible :
    (∀ cond (m : List (String × PyVal)), cond ≠ "" →
       hasSubstr cond " and " = false → matchClause (pyStrip cond) = none →
       evalCondition cond m = true)
    ∧ (∀ cond (m : List (String × PyVal)), hasSubstr cond " and " = true →
       (∀ part ∈ pySplitOn cond " and ", matchClause (pyStrip part) = none) →
       evalCondition cond m = true)
    ∧ (∀ (svc : LLMService) (be : Backend) (today : Date) (patient : Patient)
        (st : List AnswerWithConfidence × List (String × PyVal))
        (q : Question) (c : String), q.visible_if = some c →
        evalCondition c st.2 = true →
        batchStep svc be today patient st q =
          (match generateAnswerWithConfidence svc be today patient q st.2 with
           | .error e => .error e
           | .ok a => .ok (st.1 ++ [a], pyDictSet st.2 q.key a.value))) := by
  refine ⟨?_, ?_, ?_⟩
  · intro cond m hne hand hmc
    rw [evalCondition, if_neg (by simpa using hne), if_neg (by simp [hand])]
    simp only [evalSingle]
    rw [hmc]
  · intro cond m hand hparts
    have hne : ¬(cond = "") := fun he => by
      subst he; exact absurd hand (by decide)
    rw [evalCondition, if_neg hne, if_pos hand, List.all_eq_true]
    intro part hp
    simp only [evalSingle]
    rw [pyStrip_idem, hparts part hp]
  · intro svc be today patient st q c hv heval
    unfold batchStep
    rw [if_neg]
    rintro ⟨-, h2⟩
    rw [hv] at h2
    exact absurd heval (by simpa using h2)

/-- Witness for C9: an unsupported-operator clause is treated as visible. -/
theorem malformed_clause_treated_visible_witness :
    evalCondition "bmi >= 30" [("a", PyVal.str "x")] = true :=
  malformed_clause_treated_visible.1 "bmi >= 30" [("a", PyVal.str "x")]
    (by decide) (by decide) (by decide)

/-- C4: in batch processing, a question whose visibility condition is false
is skipped entirely: the step leaves the state unchanged (no entry in the
answer list, no answer generated, accumulated map untouched), so the rest of
the batch proceeds from the same state. -/
theorem batch_skips_invisible_question (svc : LLMService) (be : Backend)
    (today : Date) (patient : Patient)
    (st : List AnswerWithConfidence × List (String × PyVal)) (q : Question)
    (rest : List Question) (c : String) (hv : q.visible_if = some c)
    (hc : c ≠ "") (hfalse : evalCondition c st.2 = false) :
    batchStep svc be today patient st q = .ok st
    ∧ batchFold svc be today patient st (q :: rest) =
        batchFold svc be today patient st rest := by
  have hstep : batchStep svc be today patient st q = .ok st := by
    unfold batchStep
    rw [if_pos]
    exact ⟨by rw [hv]; exact hc, by rw [hv]; exact hfalse⟩
  refine ⟨hstep, ?_⟩
  rw [batchFold, batchFold, List.foldlM_cons, hstep]
  rfl

/-- Witness for C4: a question gated on a not-yet-answered key is skipped
from the empty starting state. -/
theorem batch_skips_invisible_question_witness :
    batchStep tService tBackend tToday tPatient ([], []) tHiddenQuestion =
      .ok ([], [])
    ∧ batchFold tService tBackend tToday tPatient ([], []) [tHiddenQuestion] =
        batchFold tService tBackend tToday tPatient ([], []) [] :=
  batch_skips_invisible_question tService tBackend tToday tPatient ([], [])
    tHiddenQuestion [] "\x7bbmi_ge_30\x7d = true" rfl (by decide) (by decide)

/-- C8: age is the calendar-year difference minus one exactly when today's
(month, day) is lexicographically before the birth (month, day); for
date_of_birth 1990-06-15, "today" 2024-06-14 gives 33, 2024-06-15 gives 34,
and so does any later 2024 date. -/
theorem age_anniversary_adjustment :
    (∀ dob y m d (t : Date), parseDateYmd dob = some (y, m, d) →
       calculateAge dob t =
         some (t.year - y -
           (if t.month < m ∨ (t.month = m ∧ t.day < d) then 1 else 0)))
    ∧ calculateAge "1990-06-15" ⟨2024, 6, 14⟩ = some 33
    ∧ calculateAge "1990-06-15" ⟨2024, 6, 15⟩ = some 34
    ∧ (∀ m d, 1 ≤ m → m ≤ 12 → 1 ≤ d → d ≤ daysInMonth 2024 m →
        (6 < m ∨ (m = 6 ∧ 15 ≤ d)) →
        calculateAge "1990-06-15" ⟨2024, m, d⟩ = some 34) := by
  refine ⟨?_, by decide, by decide, ?_⟩
  · intro dob y m d t h
    unfold calculateAge
    rw [h]
  · intro m d h1 h2 h3 h4 h5
    have hp : parseDateYmd "1990-06-15" = some (1990, 6, 15) := by decide
    unfold calculateAge
    rw [hp]
    show some ((2024 : Int) - 1990 -
      (if m < 6 ∨ (m = 6 ∧ d < 15) then 1 else 0)) = some 34
    rw [if_neg (by omega)]
    norm_num

/-- Witness for C8: a later-2024 date through the general conjunct. -/
theorem age_anniversary_adjustment_witness :
    calculateAge "1990-06-15" ⟨2024, 7, 1⟩ = some 34 :=
  age_anniversary_adjustment.2.2.2 7 1 (by decide) (by decide) (by decide)
    (by decide) (by decide)

/-- C7: the harness accepts an answer iff it equals the expected answer, or
lies in the acceptable variations, or both are strings that parse to the
same number after stripping the "kg/m²" and "years" substrings; in
particular "32.9 kg/m²" matches expected "32.9", True matches True, and
"thirty-four" does not match expected "34". -/
theorem correctness_check_characterisation :
    (∀ (actual expected : PyVal) (vars : Option (List PyVal)),
       checkAnswerCorrectness actual expected vars = true ↔
         (pyEq actual expected = true
          ∨ (∃ l, vars = some l ∧ l ≠ [] ∧
              l.any (fun v => pyEq actual v) = true)
          ∨ (∃ sa se x, actual = .str sa ∧ expected = .str se ∧
               parseFloat? (stripUnits sa) = some x ∧
               parseFloat? (stripUnits se) = some x)))
    ∧ checkAnswerCorrectness (.str "32.9 kg/m²") (.str "32.9") none = true
    ∧ checkAnswerCorrectness (.bool true) (.bool true) none = true
    ∧ checkAnswerCorrectness (.str "thirty-four") (.str "34") none = false := by
  refine ⟨?_, ?_, by decide, by decide⟩
  case refine_2 =>
    have hstrip1 : stripUnits "32.9 kg/m²" = "32.9" := by decide
    have hstrip2 : stripUnits "32.9" = "32.9" := by decide
    have hsome : (parseFloat? "32.9").isSome = true := by decide
    obtain ⟨x, hx⟩ := Option.isSome_iff_exists.mp hsome
    unfold checkAnswerCorrectness
    rw [if_neg (by decide), if_neg (by decide)]
    dsimp only
    rw [hstrip1, hstrip2, hx]
    simp
  intro actual expected vars
  constructor
  · intro h
    unfold checkAnswerCorrectness at h
    split at h
    · left; assumption
    · split at h
      · right; left
        rename_i h2
        cases vars with
        | none => exact absurd h2 (by simp)
        | some l =>
          simp only [Bool.and_eq_true, decide_eq_true_eq, ne_eq] at h2
          exact ⟨l, rfl, h2.1, h2.2⟩
      · right; right
        cases actual with
        | str sa =>
          cases expected with
          | str se =>
            have h' : (match parseFloat? (stripUnits sa),
                  parseFloat? (stripUnits se) with
                | some a, some b => decide (a = b)
                | _, _ => false) = true := h
            cases hpa : parseFloat? (stripUnits sa) with
            | none =>
              rw [hpa] at h'
              cases hpe : parseFloat? (stripUnits se) with
              | none => rw [hpe] at h'; exact Bool.noConfusion h'
              | some b => rw [hpe] at h'; exact Bool.noConfusion h'
            | some a =>
              cases hpe : parseFloat? (stripUnits se) with
              | none => rw [hpa, hpe] at h'; exact Bool.noConfusion h'
              | some b =>
                rw [hpa, hpe] at h'
                have hab : a = b := of_decide_eq_true h'
                exact ⟨sa, se, a, rfl, rfl, hpa, by rw [hpe, hab]⟩
          | bool b => exact Bool.noConfusion (show false = true from h)
          | num q => exact Bool.noConfusion (show false = true from h)
          | null => exact Bool.noConfusion (show false = true from h)
        | bool b =>
          cases expected <;> exact Bool.noConfusion (show false = true from h)
        | num q =>
          cases expected <;> exact Bool.noConfusion (show false = true from h)
        | null =>
          cases expected <;> exact Bool.noConfusion (show false = true from h)
  · rintro (h | ⟨l, rfl, hne, hany⟩ | ⟨sa, se, x, rfl, rfl, hpa, hpe⟩)
    · unfold checkAnswerCorrectness
      rw [if_pos h]
    · unfold checkAnswerCorrectness
      split
      · rfl
      · rw [if_pos (by simp [hne, hany])]
    · unfold checkAnswerCorrectness
      split
      · rfl
      · split
        · rfl
        · show (match parseFloat? (stripUnits sa),
              parseFloat? (stripUnits se) with
            | some a, some b => decide (a = b)
            | _, _ => false) = true
          rw [hpa, hpe]
          simp

/-- C6: a full evaluation run's report counts every test case, and an
exception raised by the pipeline for a test case is captured into a failed
`EvaluationResult` with a non-null error, `is_correct` and `is_acceptable`
false and confidence 0, instead of propagating. -/
theorem evaluation_run_captures_failures
    (run : TestCase → Except String AnswerWithConfidence)
    (idOf : Nat → Nat) (elapsedOf : Nat → ℚ) (now : ℚ)
    (testCases : List TestCase) :
    (runFullEvaluation run idOf elapsedOf now testCases).total_tests =
      testCases.length
    ∧ (∀ idNum elapsed tc e, run tc = .error e →
        (evaluateSingleTest run idNum elapsed tc).error = some e
        ∧ (evaluateSingleTest run idNum elapsed tc).is_correct = false
        ∧ (evaluateSingleTest run idNum elapsed tc).is_acceptable = false
        ∧ (evaluateSingleTest run idNum elapsed tc).confidence = 0) := by
  constructor
  · simp only [runFullEvaluation]
    simp [List.length_map, List.enum_length]
  · intro idNum elapsed tc e h
    unfold evaluateSingleTest
    rw [h]
    exact ⟨rfl, rfl, rfl, rfl⟩

/-- Witness for C6: a run whose pipeline always raises still reports one
result per test case, with the error captured. -/
theorem evaluation_run_captures_failures_witness :
    (runFullEvaluation tFailRun (fun _ => 0) (fun _ => 0) 0
      [tTestCase]).total_tests = 1
    ∧ (evaluateSingleTest tFailRun 0 0 tTestCase).error = some "boom" := by
  have h := evaluation_run_captures_failures tFailRun (fun _ => 0) (fun _ => 0)
    0 [tTestCase]
  exact ⟨h.1, (h.2 0 0 tTestCase "boom" rfl).1⟩

end PRQA
